import Mathlib

/-!
Verification of the `try-guard` crate (src/src/lib.rs) against its
natural-language specification.

The crate exports two macros:

* `verify!($e)` expands to `if !$e { None } else { Some(()) }`
  (src/src/lib.rs lines 141-149): a pure expression of type `Option<()>`.
* `guard!($e)` expands to `if !$e { None? }` (with the `try-trait`
  feature) or `if !$e { return None }` (without it)
  (src/src/lib.rs lines 119-132): a statement that early-exits the
  enclosing function when the predicate is false.

We embed the expansions shallowly.  The pure expression cases become Lean
functions on `Bool`; statement-position behaviour (early exit, evaluation
order, side effects) is embedded by explicit state passing: an effectful
expression of type `a` in state `s` is a function `s -> s x a`, and a
function body `guard!(b); tail` becomes a function combining the
predicate's effect with the tail's effect, short-circuiting on `false`
exactly where the expansion does.
-/

namespace TryGuard

/-- Shallow embedding of the `verify!` macro for an evaluated predicate
value `b`: `if !$e { None } else { Some(()) }` (src/src/lib.rs 142-148). -/
def verify (b : Bool) : Option Unit :=
  if !b then none else some ()

/-- The condition the `guard!` expansion branches on: `if !$e { ... }`
(src/src/lib.rs line 121).  The early exit is taken iff this is `true`. -/
def guardCond (b : Bool) : Bool := !b

/-- Rust's `std::option::NoneError`: the error type of the (old)
`Try` implementation for `Option`, a unit struct. -/
inductive NoneError : Type where
  | mk : NoneError
  deriving DecidableEq

/-- `<Option<T> as Try>::into_result`: `Some(v)` becomes `Ok(v)`,
`None` becomes `Err(NoneError)`.  This is the host-language machinery the
`?` operator in the `try-trait` variant of `guard!` desugars through. -/
def optionIntoResult : Option β → Except NoneError β
  | none => Except.error NoneError.mk
  | some x => Except.ok x

/-- A function body `guard!(b); tail` inside a function returning
`Option<a>`, with the `try-trait` variant of the macro
(src/src/lib.rs 122-125): on `!b` the statement `None?` runs
`into_result` on `None` and early-returns `from_error` of the resulting
error, which for `Option` is `None`; otherwise the body falls through to
the tail expression. -/
def guardBodyTry (b : Bool) (tail : Option α) : Option α :=
  if !b then
    match optionIntoResult (none : Option Unit) with
    | Except.error _ => none
    | Except.ok _ => tail
  else tail

/-- A function body `guard!(b); tail` inside a function returning
`Option<a>`, with the fallback variant of the macro
(src/src/lib.rs 126-129): on `!b` the body is `return None`; otherwise
it falls through to the tail expression. -/
def guardBodyReturn (b : Bool) (tail : Option α) : Option α :=
  if !b then none else tail

/-- The test suite's `CustomError` (src/src/lib.rs 198-199): a unit
struct. -/
inductive CustomError : Type where
  | mk : CustomError
  deriving DecidableEq

/-- `impl From<NoneError> for CustomError` (src/src/lib.rs 201-206):
every `NoneError` converts to `CustomError`. -/
def CustomError.fromNoneError : NoneError → CustomError :=
  fun _ => CustomError.mk

/-- A function body `guard!(b); tail` inside a context returning
`Result<a, CustomError>` with the `try-trait` variant
(src/src/lib.rs 122-125, exercised at 219-228): on `!b` the statement
`None?` runs `into_result` on `None` and early-returns
`Try::from_error(From::from(e))`, i.e. `Err(CustomError)`; otherwise the
body falls through to the tail expression. -/
def guardBodyExcept (b : Bool) (tail : Except CustomError α) :
    Except CustomError α :=
  if !b then
    match optionIntoResult (none : Option Unit) with
    | Except.error e => Except.error (CustomError.fromNoneError e)
    | Except.ok _ => tail
  else tail

/-- Rust's `Option::ok_or`, the caller-supplied combinator of the spec's
scenario 5: convert an absent optional into a failure carrying a custom
error value. -/
def okOr (o : Option α) (e : ε) : Except ε α :=
  match o with
  | some x => Except.ok x
  | none => Except.error e

/-!
State-passing embedding of statement-position behaviour.  An effectful
expression of type `a` over state `σ` is `σ → σ × α`.
-/

/-- A function body `guard!(p); t` over state `σ`, where `p` is the
effectful predicate expression and `t` the effectful tail expression of
type `Option α`.  Following the expansion (src/src/lib.rs 120-131): the
predicate is evaluated first; if its value is false the function returns
`None` at once (the tail is not run); otherwise the tail runs and its
value is the function's result. -/
def guardBodyEff (p : σ → σ × Bool) (t : σ → σ × Option α) (s : σ) :
    σ × Option α :=
  let r := p s
  if !r.2 then (r.1, none) else t r.1

/-- A function body `verify!(p); t` over state `σ`: the `verify!`
expansion (src/src/lib.rs 142-148) is an expression; in statement
position its value is computed and discarded, and the tail expression
runs unconditionally. -/
def verifyBodyEff (p : σ → σ × Bool) (t : σ → σ × α) (s : σ) : σ × α :=
  let r := p s
  let _marker : Option Unit := verify r.2
  t r.1

/-- The `verify!` expansion as an effectful expression, applied to an
already-evaluated predicate value `b`: the expansion
`if !b { None } else { Some(()) }` contains no state operation, so its
effect embedding leaves the state unchanged and yields `verify b`. -/
def verifyEff (b : Bool) (s : σ) : σ × Option Unit :=
  (s, verify b)

/-- Run an effectful expression `n` times in sequence, threading the
state and collecting the `n` results in order. -/
def iterEval (f : σ → σ × α) : Nat → σ → σ × List α
  | 0, s => (s, [])
  | n + 1, s =>
    let r := f s
    let rest := iterEval f n r.1
    (rest.1, r.2 :: rest.2)

end TryGuard

namespace TryGuard

/-- C1: for every boolean `b`, `verify b` is `some ()` (present-empty)
iff `b` is true, and `none` (absent) iff `b` is false. -/
theorem verify_present_iff_true (b : Bool) :
    (verify b = some () ↔ b = true) ∧ (verify b = none ↔ b = false) := by
  cases b <;> simp [verify]

/-- C2: a function body `guard!(b); tail` (in either variant of the
expansion) evaluates to `none` when `b` is false and to the tail
expression's value when `b` is true. -/
theorem guardBody_result (b : Bool) (tail : Option α) :
    guardBodyTry b tail = (if b then tail else none) ∧
      guardBodyReturn b tail = (if b then tail else none) := by
  cases b <;> simp [guardBodyTry, guardBodyReturn, optionIntoResult]

/-- C3: when the predicate expression evaluates to false, the guard body
returns the absent value in the state the predicate left behind: the
result is `none`, and the tail expression contributes neither its value
nor its state effect (the result does not depend on `t` at all). -/
theorem guardBodyEff_false (p : σ → σ × Bool) (t : σ → σ × Option α)
    (s : σ) (h : (p s).2 = false) :
    guardBodyEff p t s = ((p s).1, none) := by
  simp [guardBodyEff, h]

/-- Witness for C3 at a concrete instrumented predicate, tail and
state: the predicate increments the counter and yields false; the tail
would double the counter and yield `some 7`, but neither effect nor
value of the tail shows in the result. -/
theorem guardBodyEff_false_witness :
    guardBodyEff (fun s => (s + 1, false)) (fun s => (s * 2, some 7)) 0
      = (1, none) :=
  guardBodyEff_false (fun s => (s + 1, false)) (fun s => (s * 2, some 7))
    0 rfl

/-- C4: idempotence: running the `verify!` expansion on the same boolean
value `n` times in sequence leaves the state unchanged and yields the
same classification `verify b` each time; likewise `n` sequential runs of
a guard body over a pure predicate of value `b` yield the same
classification (`some a` or `none` as `b` is true or false) each time. -/
theorem iterEval_idempotent (b : Bool) (a : Nat) (n : Nat) (s : Nat) :
    iterEval (verifyEff b) n s = (s, List.replicate n (verify b)) ∧
      iterEval
          (guardBodyEff (fun u => (u, b)) (fun u => (u, some a))) n s
        = (s, List.replicate n (if b then some a else none)) := by
  induction n generalizing s with
  | zero => simp [iterEval]
  | succ n ih =>
    obtain ⟨ih1, ih2⟩ := ih s
    constructor
    · simp [iterEval, verifyEff, ih1, List.replicate]
    · cases b <;>
        simp_all [iterEval, guardBodyEff, List.replicate]

/-- C5: the `verify!` expansion never alters control flow: in a function
body `verify!(p); t` the tail expression always runs (in the state the
predicate left) and its value is the function's result, whatever the
predicate's value. -/
theorem verifyBodyEff_is_tail (p : σ → σ × Bool) (t : σ → σ × α)
    (s : σ) :
    verifyBodyEff p t s = t (p s).1 := by
  simp [verifyBodyEff]

/-- C6: chaining the absent result of `verify!` through the
caller-supplied "absent to custom error" combinator yields exactly that
error: `verify false` is itself just the value `none` (no early exit),
and `okOr` of it at any error value `e` is the failure carrying `e`. -/
theorem verify_false_okOr (ε : Type) (e : ε) :
    verify false = none ∧ okOr (α := Unit) (verify false) e
      = Except.error e := by
  simp [verify, okOr]

/-- C7: with a false predicate inside a context whose result shape is
`Result<i32, CustomError>` (where `CustomError: From<NoneError>`), the
guard expansion's early exit produces that type's own failure value
`Err(CustomError)`, for every tail expression — matching the
`try_result_failure` test at the concrete input `1 > 2` with tail `10`. -/
theorem guardBodyExcept_false (tail : Except CustomError Int) :
    guardBodyExcept false tail = Except.error CustomError.mk ∧
      guardBodyExcept (decide ((1 : Int) > 2)) (Except.ok (10 : Int))
        = Except.error CustomError.mk := by
  constructor <;> simp [guardBodyExcept, optionIntoResult]

/-- C8: determinism: the output of the `verify!` expansion and the
control decision of the `guard!` expansion are functions of the boolean
input alone — two runs from arbitrary distinct states (and, for guard,
with arbitrary distinct tails) produce the same `verify` output and take
the early exit under exactly the same condition. -/
theorem expansion_deterministic (b : Bool) (s s' a a' : Nat) :
    (verifyEff b s).2 = (verifyEff b s').2 ∧
      ((guardBodyEff (fun u => (u, b)) (fun u => (u, some a)) s).2 = none
        ↔ (guardBodyEff (fun u => (u, b)) (fun u => (u, some a')) s').2
          = none) := by
  cases b <;> simp [verifyEff, guardBodyEff]

/-- C9: both expansions evaluate their predicate expression exactly
once, whether the predicate's value is true or false: instrumenting the
predicate with an arbitrary state effect `f` and keeping the tail free of
state effects, the final state is exactly one application of `f`. -/
theorem predicate_evaluated_once (f : Nat → Nat) (b : Bool) (a : Nat)
    (n : Nat) :
    (guardBodyEff (fun s => (f s, b)) (fun s => (s, some a)) n).1 = f n ∧
      (verifyBodyEff (fun s => (f s, b)) (fun s => (s, a)) n).1
        = f n := by
  cases b <;> simp [guardBodyEff, verifyBodyEff]

/-- C10: the two conditional-compilation variants of the `guard!`
expansion agree on their common domain: in a function returning
`Option<a>`, for every boolean and every tail, the try-trait variant and
the plain `return None` variant produce the same function result. -/
theorem guardBody_variants_agree (b : Bool) (tail : Option α) :
    guardBodyTry b tail = guardBodyReturn b tail := by
  cases b <;> simp [guardBodyTry, guardBodyReturn, optionIntoResult]

end TryGuard
